import Mathlib

/-!
Shallow embedding of the tx3 MCP server's tool registry and dispatch layer
(`src/src/tools/protocol.rs`): the registry-backed protocol loader
(`run_protocols_query`), the tool-descriptor builder (`list_tools`) and the
operation router / argument coercer / resolution forwarder (`call_tool`).

External collaborators (the tx3 compiler, the TRP resolver service and the
GraphQL registry transport) are modelled as oracles carried in an `Env`
record; the logic of the repository's own code is translated statement by
statement.  Rust panics (every `.unwrap()` on an `Err`/`None`) are modelled
by a dedicated `RustOutcome.abort` constructor, distinct from an `Err` value
returned to the MCP caller (`RustOutcome.err`).
-/

namespace Tx3Mcp

/-- Model of `serde_json::Value`. -/
inductive Json where
  | null
  | bool (b : Bool)
  | num (n : Int)
  | str (s : String)
  | arr (elems : List Json)
  | obj (fields : List (String × Json))

/-- `serde_json::Value::as_str`: `Some` exactly on JSON strings. -/
def Json.as_str : Json → Option String
  | .str s => some s
  | _ => none

/-- A node of the registry's `dapps` connection: `{scope, name, protocol?}`. -/
structure Dapp where
  scope : String
  name : String
  protocol : Option String
deriving Repr

/-- `Protocol { name, content }` from `protocol.rs`. -/
structure Protocol where
  name : String
  content : String
deriving DecidableEq, Repr

/-- `run_protocols_query` (lines 58-73): the GraphQL response's `data` field is
the input (the surf transport `.unwrap()` having succeeded); keep the nodes
whose `protocol` is present, name them `"<scope>_<name>"`.  `Option.getD ""`
stands for the `unwrap()` that the preceding `filter` makes infallible. -/
def run_protocols_query (registryData : Option (List Dapp)) : List Protocol :=
  match registryData with
  | some data =>
    (data.filter (fun dapp => dapp.protocol.isSome)).map (fun dapp =>
      { name := dapp.scope ++ "_" ++ dapp.name,
        content := dapp.protocol.getD "" })
  | none => []

/-- `tx3_lang::ir::Type` as far as this layer inspects it: the four types the
coercer dispatches on, plus an opaque constructor for every other variant of
the compiler's (open, external) type enum.  `tag` is the variant's Debug text. -/
inductive Tx3Type where
  | int
  | bool
  | bytes
  | address
  | other (tag : String)
deriving DecidableEq, Repr

/-- `format!("\x7b:?\x7d", param_type)`: the Debug rendering of a `Tx3Type`. -/
def Tx3Type.debugStr : Tx3Type → String
  | .int => "Int"
  | .bool => "Bool"
  | .bytes => "Bytes"
  | .address => "Address"
  | .other tag => tag

/-- `tx3_lang::ArgValue` as used here: `Int(i128)`, `Bool`, `String`. -/
inductive ArgValue where
  | int (i : Int)
  | bool (b : Bool)
  | string (s : String)
deriving DecidableEq, Repr

/-- A `ProtoTx` (prototype transaction) as the external compiler exposes it:
its parameter-type map `find_params` and its IR bytecode `ir_bytes`
(bytes as naturals below 256). -/
structure ProtoTx where
  find_params : List (String × Tx3Type)
  ir_bytes : List Nat

/-- A loaded `tx3_lang::Protocol`: the transaction names `txs` returns, and
`new_tx`, which yields a prototype or fails (`none` models the `Err` case). -/
structure Tx3Protocol where
  txs : List String
  new_tx : String → Option ProtoTx

/-- `rmcp::Error` as this layer builds it: a JSON-RPC error code and message. -/
structure McpError where
  code : Int
  message : String
deriving DecidableEq, Repr

/-- `ErrorCode::RESOURCE_NOT_FOUND`. -/
def RESOURCE_NOT_FOUND : Int := -32002

/-- `ErrorCode::INTERNAL_ERROR`. -/
def INTERNAL_ERROR : Int := -32603

/-- Shorthand for the `McpError::new(ErrorCode::RESOURCE_NOT_FOUND, msg, None)`
values `call_tool` constructs. -/
def mcpNotFound (msg : String) : McpError :=
  { code := RESOURCE_NOT_FOUND, message := msg }

/-- The payload of a Rust panic raised on this code's unwraps. -/
inductive PanicCause where
  | unwrapMcpErr (e : McpError)
  | compileFailure (content : String)
  | newTxFailure (txName : String)
  | intParseFailure (s : String)
  | boolParseFailure (s : String)
deriving DecidableEq, Repr

/-- Outcome of a Rust function returning `Result<α, McpError>` inside a task:
`ok`/`err` are the returned `Ok`/`Err`; `abort` is a panic (an `.unwrap()` on
an `Err` or `None`), which never returns a value to the MCP caller. -/
inductive RustOutcome (α : Type) where
  | ok (val : α)
  | err (e : McpError)
  | abort (cause : PanicCause)

/-- `rmcp::model::Content`, as far as this code builds it. -/
inductive Content where
  | text (s : String)
  | json (j : Json)

/-- `rmcp::model::CallToolResult`. -/
structure CallToolResult where
  content : List Content
  is_error : Option Bool

/-- `CallToolResult::success`. -/
def CallToolResult.success (content : List Content) : CallToolResult :=
  { content := content, is_error := some false }

/-- `rmcp::model::CallToolRequestParam`: the tool name and the optional
argument map (a JSON object, modelled as an association list). -/
structure CallToolRequestParam where
  name : String
  arguments : Option (List (String × Json))

/-- `rmcp::model::ToolAnnotations`, the fields this code sets. -/
structure ToolAnnots where
  title : String
  read_only_hint : Bool
  destructive_hint : Bool
  idempotent_hint : Bool
  open_world_hint : Bool

/-- `rmcp::model::Tool`: name, description, annotations, input schema. -/
structure Tool where
  name : String
  description : String
  annots : ToolAnnots
  input_schema : Json

/-- `rmcp::model::ListToolsResult`. -/
structure ListToolsResult where
  tools : List Tool
  next_cursor : Option String

/-- `tx3_sdk::trp::TirInfo`. -/
structure TirInfo where
  bytecode : String
  encoding : String
  version : String
deriving DecidableEq, Repr

/-- `tx3_sdk::trp::ProtoTxRequest`: the TIR envelope plus the coerced args. -/
structure ProtoTxRequest where
  tir : TirInfo
  args : List (String × ArgValue)
deriving DecidableEq, Repr

/-- The TRP resolver's success response, as far as this code reads it. -/
structure TrpResponse where
  tx : String
deriving DecidableEq, Repr

/-- The environment of external collaborators a request runs against:
the registry response's `data` field, the tx3 compiler
(`Protocol::from_string(..).load()`, `none` = compile error), the compiler's
`IR_VERSION` constant, and the TRP client's `resolve` call. -/
structure Env where
  registryData : Option (List Dapp)
  compile : String → Option Tx3Protocol
  ir_version : String
  trp : ProtoTxRequest → Except String TrpResponse

/-- Association-list lookup, modelling `HashMap::get` / `Map::get`. -/
def lookupAssoc {β : Type} : List (String × β) → String → Option β
  | [], _ => none
  | (k, v) :: rest, key => if k = key then some v else lookupAssoc rest key

/-- Field lookup in a JSON object. -/
def jsonLookup : Json → String → Option Json
  | .obj fields, key => lookupAssoc fields key
  | _, _ => none

/-- Rust `str::split("-")` over the characters of a string: every maximal
dash-free run, the empty string included (`"" ↦ [""]`, `"a-" ↦ ["a", ""]`). -/
def splitDash : List Char → List String
  | [] => [""]
  | c :: rest =>
    if c = '-' then "" :: splitDash rest
    else
      match splitDash rest with
      | [] => [String.mk [c]]
      | s :: ss => String.mk (c :: s.data) :: ss

/-- Lower-case hex digit of a value below 16 (`hex::encode` alphabet). -/
def hexDigitChar (n : Nat) : Char :=
  if n < 10 then Char.ofNat (48 + n) else Char.ofNat (87 + n)

/-- `hex::encode`: two lower-case hex digits per byte. -/
def hexEncode (bytes : List Nat) : String :=
  String.mk (bytes.foldr (fun b acc =>
    hexDigitChar (b / 16 % 16) :: hexDigitChar (b % 16) :: acc) [])

/-- Decimal digits to a natural; `none` when empty or a non-digit appears. -/
def digitsToNat : List Char → Option Nat
  | [] => none
  | cs =>
    cs.foldl (fun acc c =>
      match acc with
      | none => none
      | some n => if c.isDigit then some (n * 10 + (c.toNat - 48)) else none)
      (some 0)

/-- Rust `i128::from_str`: an optional sign, one or more decimal digits, and
the value must fit in a signed 128-bit integer. -/
def parseI128 (s : String) : Option Int :=
  let signed : Bool × List Char :=
    match s.data with
    | '-' :: rest => (true, rest)
    | '+' :: rest => (false, rest)
    | cs => (false, cs)
  match digitsToNat signed.2 with
  | none => none
  | some n =>
    if signed.1 then
      if n ≤ 2 ^ 127 then some (-(n : Int)) else none
    else
      if n < 2 ^ 127 then some (n : Int) else none

/-- Rust `bool::from_str`: exactly `"true"` or `"false"`. -/
def parseBool (s : String) : Option Bool :=
  if s = "true" then some true
  else if s = "false" then some false
  else none

/-- The fixed per-parameter schema fragment: `\x7b "type": "string" \x7d`. -/
def paramProperty : Json := Json.obj [("type", Json.str "string")]

/-- The input schema `list_tools` builds for a resolve descriptor: one string
property per parameter of the prototype, all of them required. -/
def inputSchemaFor (protocolName txName : String) (prototx : ProtoTx) : Json :=
  Json.obj [
    ("type", Json.str "object"),
    ("$schema", Json.str "http://json-schema.org/draft-07/schema#"),
    ("title", Json.str ("resolve_" ++ protocolName ++ "_" ++ txName ++ "_params")),
    ("properties", Json.obj (prototx.find_params.map (fun param => (param.1, paramProperty)))),
    ("required", Json.arr (prototx.find_params.map (fun param => Json.str param.1)))]

/-- The `resolve-<protocol>-<tx>` descriptor (lines 118-129). -/
def resolveTool (protocolName txName : String) (prototx : ProtoTx) : Tool :=
  { name := "resolve-" ++ protocolName ++ "-" ++ txName,
    description := "Resolves the transaction \'" ++ txName ++
      "\' from the protocol \'" ++ protocolName ++ "\'",
    annots := { title := "Resolve " ++ protocolName ++ " " ++ txName,
                read_only_hint := true, destructive_hint := false,
                idempotent_hint := false, open_world_hint := true },
    input_schema := inputSchemaFor protocolName txName prototx }

/-- The `describe-<protocol>-<tx>` descriptor (lines 131-142): empty schema. -/
def describeTool (protocolName txName : String) : Tool :=
  { name := "describe-" ++ protocolName ++ "-" ++ txName,
    description := "Describes the transaction \'" ++ txName ++
      "\' from the protocol \'" ++ protocolName ++
      "\' and shows the required parameters",
    annots := { title := "Describe " ++ protocolName ++ " " ++ txName,
                read_only_hint := true, destructive_hint := false,
                idempotent_hint := false, open_world_hint := true },
    input_schema := Json.obj [] }

/-- The inner loop of `list_tools` over one protocol's transactions: per
transaction, `new_tx(..).unwrap()` (panic on failure) then push the resolve
and describe descriptors. -/
def toolsForTxs (protocolName : String) (tp : Tx3Protocol) :
    List String → RustOutcome (List Tool)
  | [] => .ok []
  | txName :: rest =>
    match tp.new_tx txName with
    | none => .abort (.newTxFailure txName)
    | some prototx =>
      match toolsForTxs protocolName tp rest with
      | .ok ts => .ok (resolveTool protocolName txName prototx ::
          describeTool protocolName txName :: ts)
      | .err e => .err e
      | .abort c => .abort c

/-- The outer loop of `list_tools`: per protocol,
`Protocol::from_string(..).load().unwrap()` (panic on compile failure) then
the transaction loop. -/
def toolsForProtocols (compile : String → Option Tx3Protocol) :
    List Protocol → RustOutcome (List Tool)
  | [] => .ok []
  | protocol :: rest =>
    match compile protocol.content with
    | none => .abort (.compileFailure protocol.content)
    | some tp =>
      match toolsForTxs protocol.name tp tp.txs with
      | .ok ts =>
        match toolsForProtocols compile rest with
        | .ok ts2 => .ok (ts ++ ts2)
        | .err e => .err e
        | .abort c => .abort c
      | .err e => .err e
      | .abort c => .abort c

/-- `list_tools` (lines 88-146): query the registry, then build the
descriptor list. -/
def list_tools (env : Env) : RustOutcome ListToolsResult :=
  match toolsForProtocols env.compile (run_protocols_query env.registryData) with
  | .ok tools => .ok { tools := tools, next_cursor := none }
  | .err e => .err e
  | .abort c => .abort c

/-- One step of the coercion dispatch (lines 243-263): the four type tests,
`parse::<i128>().unwrap()` / `parse::<bool>().unwrap()` panicking on a
malformed literal, and the returned `Err` when no branch matched. -/
def coerceArg (arg_type : Tx3Type) (string_value arg_name : String) :
    RustOutcome ArgValue :=
  match arg_type with
  | .int =>
    match parseI128 string_value with
    | some i => .ok (.int i)
    | none => .abort (.intParseFailure string_value)
  | .bool =>
    match parseBool string_value with
    | some b => .ok (.bool b)
    | none => .abort (.boolParseFailure string_value)
  | .bytes => .ok (.string string_value)
  | .address => .ok (.string string_value)
  | .other _ => .err (mcpNotFound ("Invalid value provided for parameter " ++ arg_name))

/-- The argument loop of `call_tool` (lines 225-266): per `(name, value)`
pair, `as_str().ok_or_else(..).unwrap()` (panic on a non-string value),
`parameters_types.get(name).ok_or_else(..).unwrap()` (panic on an unknown
parameter), then the type dispatch; successful coercions accumulate in
iteration order. -/
def coerceArgs (parameters_types : List (String × Tx3Type))
    (transaction_name protocol_name : String) :
    List (String × Json) → RustOutcome (List (String × ArgValue))
  | [] => .ok []
  | (arg_name, value) :: rest =>
    match value.as_str with
    | none => .abort (.unwrapMcpErr (mcpNotFound
        ("Invalid value provided for parameter " ++ arg_name)))
    | some string_value =>
      match lookupAssoc parameters_types arg_name with
      | none => .abort (.unwrapMcpErr (mcpNotFound
          ("Parameter " ++ arg_name ++ " not found for transaction " ++
            transaction_name ++ " in protocol " ++ protocol_name)))
      | some arg_type =>
        match coerceArg arg_type string_value arg_name with
        | .ok arg_value =>
          match coerceArgs parameters_types transaction_name protocol_name rest with
          | .ok args => .ok ((arg_name, arg_value) :: args)
          | .err e => .err e
          | .abort c => .abort c
        | .err e => .err e
        | .abort c => .abort c

/-- The describe payload (lines 210-217): `protocol`, `transaction`, and one
`parameters` entry per declared parameter holding its type's Debug text. -/
def describeResponse (protocol_name transaction_name : String)
    (parameters_types : List (String × Tx3Type)) : Json :=
  Json.obj [
    ("protocol", Json.str protocol_name),
    ("transaction", Json.str transaction_name),
    ("parameters", Json.obj (parameters_types.map (fun p =>
      (p.1, Json.str p.2.debugStr))))]

/-- `call_tool` (lines 148-292).  The three name components and the protocol
lookup use `.ok_or_else(McpError::new(..)).unwrap()`: on the `None` side each
of those panics carrying the constructed error (`RustOutcome.abort`), it does
not return the error.  The transaction lookup and the no-type-branch case use
`return Err(..)` (`RustOutcome.err`).  The resolve path forwards a
`ProtoTxRequest` with the hex-encoded IR, the `"hex"` tag and `IR_VERSION` to
the TRP client and maps its result. -/
def call_tool (env : Env) (request : CallToolRequestParam) :
    RustOutcome CallToolResult :=
  let name := splitDash request.name.data
  match name.get? 0 with
  | none => .abort (.unwrapMcpErr (mcpNotFound "Operation not found"))
  | some operation_name =>
  match name.get? 1 with
  | none => .abort (.unwrapMcpErr (mcpNotFound "Protocol name not found"))
  | some protocol_name =>
  match name.get? 2 with
  | none => .abort (.unwrapMcpErr (mcpNotFound "Transaction name not found"))
  | some transaction_name =>
  let protocols := run_protocols_query env.registryData
  match protocols.find? (fun p => p.name == protocol_name) with
  | none => .abort (.unwrapMcpErr (mcpNotFound
      ("Protocol " ++ protocol_name ++ " not found")))
  | some protocol =>
  match env.compile protocol.content with
  | none => .abort (.compileFailure protocol.content)
  | some tx3_protocol =>
  match tx3_protocol.new_tx transaction_name with
  | none => .err (mcpNotFound
      ("Transaction " ++ transaction_name ++ " not found for protocol " ++
        protocol_name))
  | some prototx =>
  let parameters_types := prototx.find_params
  if operation_name = "describe" then
    .ok (CallToolResult.success
      [Content.json (describeResponse protocol_name transaction_name parameters_types)])
  else
    let parameters := request.arguments.getD []
    match coerceArgs parameters_types transaction_name protocol_name parameters with
    | .err e => .err e
    | .abort c => .abort c
    | .ok args =>
      match env.trp
        { tir := { bytecode := hexEncode prototx.ir_bytes,
                   encoding := "hex",
                   version := env.ir_version },
          args := args } with
      | .error e =>
        .err { code := INTERNAL_ERROR,
               message := "Error resolving transaction: " ++ e }
      | .ok r => .ok (CallToolResult.success [Content.text r.tx])
/-- A concrete parameter-type map: an Int and a Bool parameter. -/
def sampleParams : List (String × Tx3Type) := [("amount", .int), ("flag", .bool)]

/-- A concrete prototype transaction over `sampleParams`. -/
def samplePrototx : ProtoTx := { find_params := sampleParams, ir_bytes := [18, 52, 255] }

/-- A concrete compiled protocol with transactions `swap` and `mint`. -/
def sampleTx3Protocol : Tx3Protocol :=
  { txs := ["swap", "mint"],
    new_tx := fun t => if t = "swap" ∨ t = "mint" then some samplePrototx else none }

/-- The protocol the sample registry node loads to: scope `acme`, entry
`dapp`, hence the derived name `acme_dapp`. -/
def sampleProtocol : Protocol := { name := "acme_dapp", content := "sourcetext" }

/-- A concrete environment: one registry node whose protocol compiles to
`sampleTx3Protocol`, and a TRP service that answers `txhex`. -/
def sampleEnv : Env :=
  { registryData := some [{ scope := "acme", name := "dapp", protocol := some "sourcetext" }],
    compile := fun c => if c = "sourcetext" then some sampleTx3Protocol else none,
    ir_version := "v1alpha1",
    trp := fun _ => Except.ok { tx := "txhex" } }

/-- `sampleEnv` with a TRP service that fails with message `boom`. -/
def envTrpErr : Env :=
  { sampleEnv with trp := fun _ => Except.error "boom" }

/-- Per-transaction structure of the descriptor-builder loop: under a
compiler that instantiates every listed transaction, the loop yields the
resolve/describe descriptor pair of the i-th transaction at indices 2i and
2i+1. -/
theorem toolsForTxs_sound (pname : String) (tp : Tx3Protocol) :
    ∀ txs : List String, (∀ t ∈ txs, (tp.new_tx t).isSome = true) →
    ∃ ts, toolsForTxs pname tp txs = RustOutcome.ok ts ∧
      ts.length = 2 * txs.length ∧
      ∀ i (hi : i < txs.length), ∃ pt,
        tp.new_tx (txs.get ⟨i, hi⟩) = some pt ∧
        ts.get? (2 * i) = some (resolveTool pname (txs.get ⟨i, hi⟩) pt) ∧
        ts.get? (2 * i + 1) = some (describeTool pname (txs.get ⟨i, hi⟩)) := by
  intro txs
  induction txs with
  | nil =>
    intro _
    exact ⟨[], rfl, rfl, fun i hi => absurd hi (Nat.not_lt_zero i)⟩
  | cons t rest ih =>
    intro h
    have ht : (tp.new_tx t).isSome = true := h t (List.mem_cons_self t rest)
    obtain ⟨pt, hpt⟩ := Option.isSome_iff_exists.mp ht
    obtain ⟨ts, hts, hlen, hidx⟩ := ih (fun x hx => h x (List.mem_cons_of_mem t hx))
    refine ⟨resolveTool pname t pt :: describeTool pname t :: ts, ?_, ?_, ?_⟩
    · simp only [toolsForTxs, hpt, hts]
    · simp only [List.length_cons, hlen]
      ring
    · intro i hi
      match i with
      | 0 =>
        exact ⟨pt, hpt, rfl, rfl⟩
      | j + 1 =>
        have hj : j < rest.length := Nat.lt_of_succ_lt_succ hi
        obtain ⟨pt2, h1, h2, h3⟩ := hidx j hj
        refine ⟨pt2, ?_, ?_, ?_⟩
        · simpa using h1
        · have e1 : 2 * (j + 1) = 2 * j + 1 + 1 := by ring
          rw [e1]
          simpa using h2
        · have e2 : 2 * (j + 1) + 1 = (2 * j + 1) + 1 + 1 := by ring
          rw [e2]
          simpa using h3

/-- C4: for a compiled protocol, list_tools emits exactly two descriptors per
transaction, at consecutive indices: a resolve descriptor named
`resolve-<protocol>-<tx>` whose input schema has one property of JSON type
"string" per declared parameter with every parameter listed as required, and
a describe descriptor named `describe-<protocol>-<tx>` with an empty input
schema; in particular the descriptor count is twice the transaction count. -/
theorem list_tools_two_descriptors_per_tx (env : Env) (p : Protocol) (tp : Tx3Protocol)
    (hreg : run_protocols_query env.registryData = [p])
    (hcomp : env.compile p.content = some tp)
    (hinst : ∀ t ∈ tp.txs, (tp.new_tx t).isSome = true) :
    ∃ r, list_tools env = RustOutcome.ok r ∧
      r.tools.length = 2 * tp.txs.length ∧
      ∀ i (hi : i < tp.txs.length), ∃ pt,
        tp.new_tx (tp.txs.get ⟨i, hi⟩) = some pt ∧
        r.tools.get? (2 * i) = some (resolveTool p.name (tp.txs.get ⟨i, hi⟩) pt) ∧
        (resolveTool p.name (tp.txs.get ⟨i, hi⟩) pt).name =
          "resolve-" ++ p.name ++ "-" ++ tp.txs.get ⟨i, hi⟩ ∧
        jsonLookup (resolveTool p.name (tp.txs.get ⟨i, hi⟩) pt).input_schema "properties" =
          some (Json.obj (pt.find_params.map (fun q =>
            (q.1, Json.obj [("type", Json.str "string")])))) ∧
        jsonLookup (resolveTool p.name (tp.txs.get ⟨i, hi⟩) pt).input_schema "required" =
          some (Json.arr (pt.find_params.map (fun q => Json.str q.1))) ∧
        r.tools.get? (2 * i + 1) = some (describeTool p.name (tp.txs.get ⟨i, hi⟩)) ∧
        (describeTool p.name (tp.txs.get ⟨i, hi⟩)).name =
          "describe-" ++ p.name ++ "-" ++ tp.txs.get ⟨i, hi⟩ ∧
        (describeTool p.name (tp.txs.get ⟨i, hi⟩)).input_schema = Json.obj [] := by
  obtain ⟨ts, hts, hlen, hidx⟩ := toolsForTxs_sound p.name tp tp.txs hinst
  refine ⟨{ tools := ts, next_cursor := none }, ?_, hlen, ?_⟩
  · simp only [list_tools, hreg, toolsForProtocols, hcomp, hts, List.append_nil]
  · intro i hi
    obtain ⟨pt, h1, h2, h3⟩ := hidx i hi
    exact ⟨pt, h1, h2, rfl, rfl, rfl, h3, rfl, rfl⟩

/-- C4 witness: the sample protocol has the two transactions swap and mint,
and list_tools emits exactly 4 descriptors for it. -/
theorem list_tools_two_descriptors_witness :
    ∃ r, list_tools sampleEnv = RustOutcome.ok r ∧ r.tools.length = 4 := by
  obtain ⟨r, h1, h2, _⟩ := list_tools_two_descriptors_per_tx sampleEnv sampleProtocol
    sampleTx3Protocol rfl rfl (by decide)
  exact ⟨r, h1, h2⟩

/-- C5: the registry loader keeps exactly the dapp nodes whose protocol field
is present, naming each protocol `<scope>_<entryName>` with the node's
protocol text as content, and returns the empty sequence (not an error) when
the query yields no data. -/
theorem run_protocols_query_keeps_present (data : List Dapp) :
    run_protocols_query none = [] ∧
    run_protocols_query (some data) = data.filterMap (fun dapp =>
      dapp.protocol.map (fun content =>
        { name := dapp.scope ++ "_" ++ dapp.name, content := content })) := by
  refine ⟨rfl, ?_⟩
  induction data with
  | nil => rfl
  | cons d rest ih =>
    simp only [run_protocols_query] at ih ⊢
    rw [List.filter_cons, List.filterMap_cons]
    cases hd : d.protocol with
    | none =>
      simp only [hd, Option.isSome_none, Bool.false_eq_true, if_false, Option.map_none]
      exact ih
    | some c =>
      simp only [hd, Option.isSome_some, if_true, List.map_cons, Option.map_some,
        Option.getD_some]
      rw [ih]
      rfl

/-- C1: on the two-component name "resolve-acme" (and on a one-component
name), call_tool panics on `Result::unwrap` of the constructed NotFound
error for the first missing component ("Transaction name not found",
resp. "Protocol name not found"): the request is aborted, the error is not
returned to the caller as the claim states. -/
theorem call_tool_short_name_aborts :
    call_tool sampleEnv { name := "resolve-acme", arguments := none } =
      RustOutcome.abort (PanicCause.unwrapMcpErr
        (mcpNotFound "Transaction name not found")) ∧
    call_tool sampleEnv { name := "resolve", arguments := none } =
      RustOutcome.abort (PanicCause.unwrapMcpErr
        (mcpNotFound "Protocol name not found")) :=
  ⟨rfl, rfl⟩

/-- C2: when the decoded protocol name matches no loaded protocol, call_tool
panics on `Result::unwrap` of the constructed "Protocol nope not found"
error: the request is aborted, the error is not returned to the caller as
the claim states. -/
theorem call_tool_unknown_protocol_aborts :
    call_tool sampleEnv { name := "resolve-nope-swap", arguments := none } =
      RustOutcome.abort (PanicCause.unwrapMcpErr
        (mcpNotFound "Protocol nope not found")) := rfl

/-- C3: when a caller argument names a parameter absent from the
transaction's parameter-type map, call_tool panics on `Result::unwrap` of
the constructed "Parameter .. not found for transaction .. in protocol .."
error: the request is aborted, the error is not returned to the caller as
the claim states. -/
theorem call_tool_unknown_parameter_aborts :
    call_tool sampleEnv
      { name := "resolve-acme_dapp-swap", arguments := some [("bogus", Json.str "1")] } =
      RustOutcome.abort (PanicCause.unwrapMcpErr (mcpNotFound
        "Parameter bogus not found for transaction swap in protocol acme_dapp")) := rfl
/-- C6: when the action component is "describe" and the protocol and
transaction exist, call_tool returns a success payload whose fields are the
protocol name, the transaction name and a parameters map with one entry per
declared parameter holding its type text, and the result is the same for
every resolver service (the Resolver Service is never called on this path). -/
theorem call_tool_describe_reports (env : Env) (request : CallToolRequestParam)
    (pn tn : String) (p : Protocol) (tp : Tx3Protocol) (pt : ProtoTx)
    (hname : splitDash request.name.data = ["describe", pn, tn])
    (hfind : (run_protocols_query env.registryData).find? (fun q => q.name == pn) = some p)
    (hcomp : env.compile p.content = some tp)
    (htx : tp.new_tx tn = some pt) :
    call_tool env request = RustOutcome.ok (CallToolResult.success
      [Content.json (describeResponse pn tn pt.find_params)]) ∧
    jsonLookup (describeResponse pn tn pt.find_params) "protocol" = some (Json.str pn) ∧
    jsonLookup (describeResponse pn tn pt.find_params) "transaction" = some (Json.str tn) ∧
    jsonLookup (describeResponse pn tn pt.find_params) "parameters" =
      some (Json.obj (pt.find_params.map (fun q => (q.1, Json.str q.2.debugStr)))) ∧
    ∀ f g : ProtoTxRequest → Except String TrpResponse,
      call_tool { env with trp := f } request = call_tool { env with trp := g } request := by
  have main : ∀ f : ProtoTxRequest → Except String TrpResponse,
      call_tool { env with trp := f } request = RustOutcome.ok (CallToolResult.success
        [Content.json (describeResponse pn tn pt.find_params)]) := by
    intro f
    simp only [call_tool, hname, List.get?, hfind, hcomp, htx, if_pos rfl, ite_true]
  exact ⟨main env.trp, rfl, rfl, rfl, fun f g => (main f).trans (main g).symm⟩

/-- C6 witness: describing swap of the sample protocol returns the structured
payload and contacts no resolver. -/
theorem call_tool_describe_reports_witness :
    call_tool sampleEnv { name := "describe-acme_dapp-swap", arguments := none } =
      RustOutcome.ok (CallToolResult.success
        [Content.json (describeResponse "acme_dapp" "swap" sampleParams)]) :=
  (call_tool_describe_reports sampleEnv
    { name := "describe-acme_dapp-swap", arguments := none }
    "acme_dapp" "swap" sampleProtocol sampleTx3Protocol samplePrototx
    rfl rfl rfl rfl).1

/-- C7: the coercion loop dispatches on the declared parameter type: Int with
"42" yields the integer 42, Bool with "true" yields true, and Bytes and
Address pass any raw string through unchanged as the String variant. -/
theorem coercion_dispatches_on_type (tn pn n s : String) :
    coerceArgs [(n, Tx3Type.int)] tn pn [(n, Json.str "42")] =
      RustOutcome.ok [(n, ArgValue.int 42)] ∧
    coerceArgs [(n, Tx3Type.bool)] tn pn [(n, Json.str "true")] =
      RustOutcome.ok [(n, ArgValue.bool true)] ∧
    coerceArgs [(n, Tx3Type.bytes)] tn pn [(n, Json.str s)] =
      RustOutcome.ok [(n, ArgValue.string s)] ∧
    coerceArgs [(n, Tx3Type.address)] tn pn [(n, Json.str s)] =
      RustOutcome.ok [(n, ArgValue.string s)] := by
  have h42 : parseI128 "42" = some 42 := by decide
  have htrue : parseBool "true" = some true := rfl
  refine ⟨?_, ?_, ?_, ?_⟩ <;>
    simp [coerceArgs, Json.as_str, lookupAssoc, coerceArg, h42, htrue]

/-- C8: on the resolve path the forwarded request carries the prototype's IR
bytes hex-encoded, the fixed encoding tag "hex" and the compiler's IR
version; on resolver success call_tool returns the service's tx string as
the sole output, and on failure an internal error whose message is "Error
resolving transaction: " followed by the upstream message verbatim. -/
theorem call_tool_resolve_forwards (env : Env) (request : CallToolRequestParam)
    (a pn tn : String) (p : Protocol) (tp : Tx3Protocol) (pt : ProtoTx)
    (rawArgs : List (String × Json)) (args : List (String × ArgValue))
    (hname : splitDash request.name.data = [a, pn, tn])
    (ha : a ≠ "describe")
    (hfind : (run_protocols_query env.registryData).find? (fun q => q.name == pn) = some p)
    (hcomp : env.compile p.content = some tp)
    (htx : tp.new_tx tn = some pt)
    (hargs : request.arguments = some rawArgs)
    (hcoerce : coerceArgs pt.find_params tn pn rawArgs = RustOutcome.ok args) :
    (∀ r : TrpResponse,
      env.trp { tir := { bytecode := hexEncode pt.ir_bytes, encoding := "hex",
                         version := env.ir_version }, args := args } = Except.ok r →
      call_tool env request =
        RustOutcome.ok (CallToolResult.success [Content.text r.tx])) ∧
    (∀ e : String,
      env.trp { tir := { bytecode := hexEncode pt.ir_bytes, encoding := "hex",
                         version := env.ir_version }, args := args } = Except.error e →
      call_tool env request = RustOutcome.err
        { code := INTERNAL_ERROR,
          message := "Error resolving transaction: " ++ e }) := by
  constructor
  · intro r hr
    simp only [call_tool, hname, List.get?, hfind, hcomp, htx, hargs, Option.getD_some,
      if_neg ha, hcoerce, hr]
  · intro e he
    simp only [call_tool, hname, List.get?, hfind, hcomp, htx, hargs, Option.getD_some,
      if_neg ha, hcoerce, he]

/-- C8 witness: resolving swap of the sample protocol with well-typed
arguments returns the sample resolver's tx, and with a failing resolver
returns the wrapped internal error. -/
theorem call_tool_resolve_forwards_witness :
    call_tool sampleEnv
      { name := "resolve-acme_dapp-swap",
        arguments := some [("amount", Json.str "42"), ("flag", Json.str "true")] } =
      RustOutcome.ok (CallToolResult.success [Content.text "txhex"]) ∧
    call_tool envTrpErr
      { name := "resolve-acme_dapp-swap",
        arguments := some [("amount", Json.str "42"), ("flag", Json.str "true")] } =
      RustOutcome.err
        { code := INTERNAL_ERROR,
          message := "Error resolving transaction: boom" } :=
  ⟨(call_tool_resolve_forwards sampleEnv
      { name := "resolve-acme_dapp-swap",
        arguments := some [("amount", Json.str "42"), ("flag", Json.str "true")] }
      "resolve" "acme_dapp" "swap" sampleProtocol sampleTx3Protocol samplePrototx
      [("amount", Json.str "42"), ("flag", Json.str "true")]
      [("amount", ArgValue.int 42), ("flag", ArgValue.bool true)]
      rfl (by decide) rfl rfl rfl rfl rfl).1 { tx := "txhex" } rfl,
   (call_tool_resolve_forwards envTrpErr
      { name := "resolve-acme_dapp-swap",
        arguments := some [("amount", Json.str "42"), ("flag", Json.str "true")] }
      "resolve" "acme_dapp" "swap" sampleProtocol sampleTx3Protocol samplePrototx
      [("amount", Json.str "42"), ("flag", Json.str "true")]
      [("amount", ArgValue.int 42), ("flag", ArgValue.bool true)]
      rfl (by decide) rfl rfl rfl rfl rfl).2 "boom" rfl⟩

/-- C9: naming a transaction the compiled protocol does not contain makes
call_tool return (not panic) a NotFound error "Transaction .. not found for
protocol ..", and the result is the same for every resolver service (the
Resolver Service is not contacted). -/
theorem call_tool_tx_not_found_reported (env : Env) (request : CallToolRequestParam)
    (a pn tn : String) (p : Protocol) (tp : Tx3Protocol)
    (hname : splitDash request.name.data = [a, pn, tn])
    (hfind : (run_protocols_query env.registryData).find? (fun q => q.name == pn) = some p)
    (hcomp : env.compile p.content = some tp)
    (htx : tp.new_tx tn = none) :
    call_tool env request = RustOutcome.err
      (mcpNotFound ("Transaction " ++ tn ++ " not found for protocol " ++ pn)) ∧
    ∀ f g : ProtoTxRequest → Except String TrpResponse,
      call_tool { env with trp := f } request = call_tool { env with trp := g } request := by
  have main : ∀ f : ProtoTxRequest → Except String TrpResponse,
      call_tool { env with trp := f } request = RustOutcome.err
        (mcpNotFound ("Transaction " ++ tn ++ " not found for protocol " ++ pn)) := by
    intro f
    simp only [call_tool, hname, List.get?, hfind, hcomp, htx]
  exact ⟨main env.trp, fun f g => (main f).trans (main g).symm⟩

/-- C9 witness: asking the sample protocol for the absent transaction
"missing" returns the reported NotFound error. -/
theorem call_tool_tx_not_found_reported_witness :
    call_tool sampleEnv { name := "resolve-acme_dapp-missing", arguments := none } =
      RustOutcome.err
        (mcpNotFound "Transaction missing not found for protocol acme_dapp") :=
  (call_tool_tx_not_found_reported sampleEnv
    { name := "resolve-acme_dapp-missing", arguments := none }
    "resolve" "acme_dapp" "missing" sampleProtocol sampleTx3Protocol
    rfl rfl rfl rfl).1

/-- C10: any action component other than "describe" (not just "resolve")
takes the resolve path: with absent caller arguments treated as an empty
argument map, the request is forwarded to the Resolver Service and its tx
answer is returned. -/
theorem call_tool_unknown_action_resolves (env : Env) (request : CallToolRequestParam)
    (a pn tn : String) (p : Protocol) (tp : Tx3Protocol) (pt : ProtoTx)
    (hname : splitDash request.name.data = [a, pn, tn])
    (ha : a ≠ "describe")
    (hfind : (run_protocols_query env.registryData).find? (fun q => q.name == pn) = some p)
    (hcomp : env.compile p.content = some tp)
    (htx : tp.new_tx tn = some pt)
    (hargs : request.arguments = none) :
    ∀ r : TrpResponse,
      env.trp { tir := { bytecode := hexEncode pt.ir_bytes, encoding := "hex",
                         version := env.ir_version }, args := [] } = Except.ok r →
      call_tool env request =
        RustOutcome.ok (CallToolResult.success [Content.text r.tx]) := by
  intro r hr
  simp only [call_tool, hname, List.get?, hfind, hcomp, htx, hargs, Option.getD_none,
    if_neg ha, coerceArgs, hr]

/-- C10 witness: the unknown action "frobnicate" on the sample protocol's
swap, with no arguments, is forwarded and answered with the resolver's tx. -/
theorem call_tool_unknown_action_resolves_witness :
    call_tool sampleEnv { name := "frobnicate-acme_dapp-swap", arguments := none } =
      RustOutcome.ok (CallToolResult.success [Content.text "txhex"]) :=
  call_tool_unknown_action_resolves sampleEnv
    { name := "frobnicate-acme_dapp-swap", arguments := none }
    "frobnicate" "acme_dapp" "swap" sampleProtocol sampleTx3Protocol samplePrototx
    rfl (by decide) rfl rfl rfl rfl { tx := "txhex" } rfl

end Tx3Mcp
